import Mathlib

/-!
Verification of the realtime input-audio-buffer event router
(`speaches/realtime/input_audio_buffer_event_router.py`).

Conventions of the embedding.  Audio samples are rationals (the source works
on float32 arrays; only lengths and index positions matter for the
properties below), millisecond values are integers, sample counts are
naturals.  The external VAD capability (`get_speech_timestamps`) and the id
generators (`generate_event_id` / `generate_item_id`) are modelled as
parameters: each handler receives the capability's answer for the window it
inspects and the fresh ids it would draw.  Mutation of the session context
and of `vad_state` is modelled by returning the updated values.
-/

namespace Speaches

/-- Canonical sample rate, source line 33. -/
def SAMPLE_RATE : ℕ := 16000

/-- Samples per millisecond at the canonical rate, source line 34. -/
def MS_SAMPLE_RATE : ℕ := 16

/-- Maximum VAD lookback window (3000 ms of audio), source line 35. -/
def MAX_VAD_WINDOW_SIZE_SAMPLES : ℕ := 3000 * MS_SAMPLE_RATE

/-- Linear interpolation of `fp`, sampled at positions `0, 1, ..., fp.length - 1`,
evaluated at position `x` and clamped at both ends: this is `numpy.interp`
with `xp = arange(len(fp))`.  numpy raises on an empty `fp`; the resampler
below never evaluates this function on an empty list, and we return `0`
there. -/
def np_interp (fp : List ℚ) (x : ℚ) : ℚ :=
  if x ≤ 0 then fp.headD 0
  else if ((fp.length : ℚ) - 1) ≤ x then fp.getLastD 0
  else
    fp.getD (⌊x⌋).toNat 0 +
      (x - ((⌊x⌋).toNat : ℚ)) * (fp.getD ((⌊x⌋).toNat + 1) 0 - fp.getD (⌊x⌋).toNat 0)

/-- Evenly spaced rationals from `0` to `stop` inclusive:
`numpy.linspace(0, stop, num)`. -/
def linspace (stop : ℚ) (num : ℕ) : List ℚ :=
  if num ≤ 1 then List.replicate num 0
  else (List.range num).map fun i : ℕ => stop * (i : ℚ) / ((num : ℚ) - 1)

/-- Source lines 50-53.  `target_length = int(len(data) * (target / source))`
truncates, which is the floor of the exact ratio (the float computation is
exact at every input appearing in this development); the output interpolates
the input at the `numpy.linspace(0, len(data), target_length)` positions. -/
def resample_audio_data (data : List ℚ) (sample_rate target_sample_rate : ℕ) : List ℚ :=
  (linspace (data.length : ℚ) (data.length * target_sample_rate / sample_rate)).map
    (np_interp data)

/-- Speech span reported by the external VAD capability, in samples relative
to the inspected window (field `end` of the source dict is spelled `end_`
because `end` is reserved in Lean). -/
structure SpeechTimestamp where
  start : ℕ
  end_ : ℕ
deriving DecidableEq

/-- Source lines 56-60: convert each span from samples to milliseconds by
integer division. -/
def to_ms_speech_timestamps (speech_timestamps : List SpeechTimestamp) : List SpeechTimestamp :=
  speech_timestamps.map fun ts =>
    { start := ts.start / MS_SAMPLE_RATE, end_ := ts.end_ / MS_SAMPLE_RATE }

/-- Turn-detection configuration (spec section 3; `threshold` and
`silence_duration_ms` are only forwarded to the VAD capability and play no
role in the router's own logic). -/
structure TurnDetection where
  threshold : ℚ
  prefix_padding_ms : ℕ
  silence_duration_ms : ℕ
  create_response : Bool
deriving DecidableEq

/-- Modelled from the spec: the mutable `VadState` of a buffer (spec section 3)
with its optional speech start/end markers in milliseconds; the class lives in
`speaches/realtime/input_audio_buffer.py`, which is not part of the snippet. -/
structure VadState where
  audio_start_ms : Option ℤ
  audio_end_ms : Option ℤ
deriving DecidableEq

/-- Modelled from the spec: `InputAudioBuffer` (spec section 3) — an opaque id,
the sample data at the canonical 16 kHz rate, and the mutable VAD state. -/
structure InputAudioBuffer where
  id : String
  data : List ℚ
  vad_state : VadState
deriving DecidableEq

/-- Modelled from the spec: `size` is the sample count (spec section 3). -/
def InputAudioBuffer.size (b : InputAudioBuffer) : ℕ := b.data.length

/-- Modelled from the spec: `duration_ms = size / samples-per-ms` (spec
section 3), integer division. -/
def InputAudioBuffer.duration_ms (b : InputAudioBuffer) : ℕ := b.size / MS_SAMPLE_RATE

/-- Modelled from the spec: a freshly constructed `InputAudioBuffer()` is
empty with both VAD markers unset; its id comes from the external id
generator and is therefore a parameter of the handlers below. -/
def newInputAudioBuffer (id : String) : InputAudioBuffer :=
  { id := id, data := [], vad_state := { audio_start_ms := none, audio_end_ms := none } }

/-- Trailing window `input_audio_buffer.data[-MAX_VAD_WINDOW_SIZE_SAMPLES:]`,
source line 66 (the whole buffer when it is shorter than the window). -/
def vad_window (b : InputAudioBuffer) : List ℚ :=
  b.data.drop (b.data.length - MAX_VAD_WINDOW_SIZE_SAMPLES)

/-- Error payload carried by an `error` event. -/
structure Error where
  type : String
  message : String
deriving DecidableEq

/-- Source lines 41-44. -/
def empty_input_audio_buffer_commit_error : Error :=
  { type := "invalid_request_error",
    message := "Error committing input audio buffer: the buffer is empty." }

/-- Outbound events published by the router (payload fields only; the wire
`type` tag is determined by the constructor). -/
inductive Event where
  | speech_started (event_id : String) (item_id : String) (audio_start_ms : ℤ)
  | speech_stopped (event_id : String) (item_id : String) (audio_end_ms : ℤ)
  | committed (event_id : String) (previous_item_id : Option String) (item_id : String)
  | cleared (event_id : String)
  | error_event (event_id : String) (error : Error)
deriving DecidableEq

/-- Source lines 63-122.  The answer of the external `get_speech_timestamps`
for the current trailing window is the parameter `raw` (sample offsets,
converted to milliseconds exactly as the source does); `eid` is the id the
source draws from `generate_item_id()` for the produced event.  Returns the
produced event, if any, together with the updated buffer (the source mutates
`input_audio_buffer.vad_state` in place).  The source keeps only the last
reported span (`speech_timestamps[-1] if len(speech_timestamps) > 0 else
None`, line 81) and then branches on `vad_state.audio_start_ms` (line 84),
never consulting `audio_end_ms`. -/
def vad_detection_flow (input_audio_buffer : InputAudioBuffer) (turn_detection : TurnDetection)
    (raw : List SpeechTimestamp) (eid : String) : Option Event × InputAudioBuffer :=
  match input_audio_buffer.vad_state.audio_start_ms, (to_ms_speech_timestamps raw).getLast? with
  | none, none => (none, input_audio_buffer)
  | none, some speech_timestamp =>
    let audio_start_ms : ℤ :=
      (input_audio_buffer.duration_ms : ℤ) -
        (((vad_window input_audio_buffer).length / MS_SAMPLE_RATE : ℕ) : ℤ) +
        (speech_timestamp.start : ℤ)
    (some (Event.speech_started eid input_audio_buffer.id audio_start_ms),
     { input_audio_buffer with
        vad_state := { input_audio_buffer.vad_state with audio_start_ms := some audio_start_ms } })
  | some _, none =>
    let audio_end_ms : ℤ :=
      (input_audio_buffer.duration_ms : ℤ) - (turn_detection.prefix_padding_ms : ℤ)
    (some (Event.speech_stopped eid input_audio_buffer.id audio_end_ms),
     { input_audio_buffer with
        vad_state := { input_audio_buffer.vad_state with audio_end_ms := some audio_end_ms } })
  | some _, some speech_timestamp =>
    if speech_timestamp.end_ < 3000 ∧ 3000 < input_audio_buffer.duration_ms then
      let audio_end_ms : ℤ :=
        (input_audio_buffer.duration_ms : ℤ) - (turn_detection.prefix_padding_ms : ℤ)
      (some (Event.speech_stopped eid input_audio_buffer.id audio_end_ms),
       { input_audio_buffer with
          vad_state := { input_audio_buffer.vad_state with audio_end_ms := some audio_end_ms } })
    else
      (none, input_audio_buffer)

/-- Start marker computed on a speech-started transition (source lines
87-89): `duration_ms - len(audio_window) // MS_SAMPLE_RATE + span.start`. -/
def speech_start_value (b : InputAudioBuffer) (ts : SpeechTimestamp) : ℤ :=
  (b.duration_ms : ℤ) - (((vad_window b).length / MS_SAMPLE_RATE : ℕ) : ℤ) + (ts.start : ℤ)

/-- Outcome of the speech-started branch of `vad_detection_flow` (source
lines 84-95): `audio_start_ms` is set to `speech_start_value` and a
`speech_started` event carrying that value and the buffer's id is produced. -/
def vad_started_result (b : InputAudioBuffer) (ts : SpeechTimestamp) (eid : String) :
    Option Event × InputAudioBuffer :=
  (some (Event.speech_started eid b.id (speech_start_value b ts)),
   { b with vad_state := { b.vad_state with audio_start_ms := some (speech_start_value b ts) } })

/-- Shared shape of the two speech-stopped outcomes of `vad_detection_flow`
(source lines 98-120): the buffer's `audio_end_ms` becomes
`duration_ms - prefix_padding_ms` and a `speech_stopped` event carrying that
value is produced. -/
def vad_stopped_result (b : InputAudioBuffer) (td : TurnDetection) (eid : String) :
    Option Event × InputAudioBuffer :=
  (some (Event.speech_stopped eid b.id ((b.duration_ms : ℤ) - (td.prefix_padding_ms : ℤ))),
   { b with vad_state := { b.vad_state with
       audio_end_ms := some ((b.duration_ms : ℤ) - (td.prefix_padding_ms : ℤ)) } })

/-- Session state used by the handlers: the insertion-ordered buffer mapping
(`ctx.input_audio_buffers`, a Python dict whose last entry is the active
buffer), the insertion-ordered ids of the conversation items
(`ctx.conversation`), and the session's turn-detection configuration
(`ctx.configuration.turn_detection`). -/
structure SessionContext where
  input_audio_buffers : List (String × InputAudioBuffer)
  conversation : List String
  turn_detection : Option TurnDetection
deriving DecidableEq

/-- Python dict assignment `m[k] = v` on an insertion-ordered mapping: an
existing key keeps its position, a new key goes to the end. -/
def dictInsert (m : List (String × InputAudioBuffer)) (k : String) (v : InputAudioBuffer) :
    List (String × InputAudioBuffer) :=
  if m.any fun p => p.1 == k then m.map fun p => if p.1 == k then (k, v) else p
  else m ++ [(k, v)]

/-- Result of the append handler: the new session state, the published events,
and the windows on which the external VAD capability was invoked — one entry
per `get_speech_timestamps` call made while processing this append. -/
structure AppendResult where
  ctx : SessionContext
  events : List Event
  vad_windows : List (List ℚ)
deriving DecidableEq

/-- Source lines 128-142.  `chunk` is the decoded 24 kHz audio of the event
(base64/PCM16 decoding happens in the external `audio_samples_from_file`),
`raw` is the VAD capability's answer for the inspected window, and `eid` the
id the flow would draw for its event.  An empty buffer mapping raises
`StopIteration` in the source and cannot occur — a session always holds an
active buffer — so the state is returned unchanged there. -/
def handle_input_audio_buffer_append (chunk : List ℚ) (raw : List SpeechTimestamp)
    (eid : String) (ctx : SessionContext) : AppendResult :=
  let audio_chunk := resample_audio_data chunk 24000 16000
  match ctx.input_audio_buffers.getLast? with
  | none => { ctx := ctx, events := [], vad_windows := [] }
  | some (input_audio_buffer_id, input_audio_buffer) =>
    let appended : InputAudioBuffer :=
      { input_audio_buffer with data := input_audio_buffer.data ++ audio_chunk }
    let ctx1 : SessionContext :=
      { ctx with input_audio_buffers :=
          dictInsert ctx.input_audio_buffers input_audio_buffer_id appended }
    match ctx.turn_detection with
    | none => { ctx := ctx1, events := [], vad_windows := [] }
    | some turn_detection =>
      let r := vad_detection_flow appended turn_detection raw eid
      let ctx2 : SessionContext :=
        { ctx1 with input_audio_buffers :=
            dictInsert ctx1.input_audio_buffers input_audio_buffer_id r.2 }
      { ctx := ctx2, events := r.1.toList, vad_windows := [vad_window appended] }

/-- Source lines 146-163.  `eid` is the drawn event id and `newId` the id of
the buffer `InputAudioBuffer()` would create on the non-empty path.  An empty
buffer mapping cannot occur (see `handle_input_audio_buffer_append`). -/
def handle_input_audio_buffer_commit (eid newId : String) (ctx : SessionContext) :
    SessionContext × List Event :=
  match ctx.input_audio_buffers.getLast? with
  | none => (ctx, [])
  | some (input_audio_buffer_id, input_audio_buffer) =>
    if input_audio_buffer.size = 0 then
      (ctx, [Event.error_event eid empty_input_audio_buffer_commit_error])
    else
      ({ ctx with input_audio_buffers :=
          dictInsert ctx.input_audio_buffers newId (newInputAudioBuffer newId) },
       [Event.committed eid ctx.conversation.getLast? input_audio_buffer_id])

/-- Source lines 166-177: `popitem()` removes the most recently inserted
(= active) entry, a `cleared` event is published, and a fresh empty buffer is
installed.  `popitem()` on an empty dict raises `KeyError` in the source and
cannot occur (a session always holds an active buffer). -/
def handle_input_audio_buffer_clear (eid newId : String) (ctx : SessionContext) :
    SessionContext × List Event :=
  ({ ctx with input_audio_buffers :=
      dictInsert ctx.input_audio_buffers.dropLast newId (newInputAudioBuffer newId) },
   [Event.cleared eid])

/-- Source lines 183-198: on `speech_stopped` a fresh empty buffer is
installed first, then a `committed` event is published for the stopped
buffer's item id, with `previous_item_id` the last conversation item id or
the placeholder string when the conversation is empty. -/
def handle_input_audio_buffer_speech_stopped (eid newId : String) (event_item_id : String)
    (ctx : SessionContext) : SessionContext × List Event :=
  ({ ctx with input_audio_buffers :=
      dictInsert ctx.input_audio_buffers newId (newInputAudioBuffer newId) },
   [Event.committed eid (some ((ctx.conversation.getLast?).getD "IDK")) event_item_id])

/-- One turn-detection evaluation in a run over a single buffer: the buffer
contents at the time of the call (appends may have grown it since the
previous call), the configuration, the VAD capability's answer for the
window, and the event id drawn for this call. -/
structure VadCall where
  data : List ℚ
  td : TurnDetection
  raw : List SpeechTimestamp
  eid : String

/-- Run `vad_detection_flow` once against a buffer with the given id, data
and VAD state, returning the new VAD state and the produced event. -/
def runVadCall (id : String) (s : VadState) (c : VadCall) : VadState × Option Event :=
  let r := vad_detection_flow { id := id, data := c.data, vad_state := s } c.td c.raw c.eid
  (r.2.vad_state, r.1)

/-- Run a sequence of turn-detection evaluations over one buffer, threading
the VAD state and collecting the produced events in order. -/
def runVadSeq (id : String) (s : VadState) (calls : List VadCall) : VadState × List Event :=
  match calls with
  | [] => (s, [])
  | c :: rest =>
    let r := runVadCall id s c
    let rr := runVadSeq id r.1 rest
    (rr.1, r.2.toList ++ rr.2)

/-- Number of `speech_started` events in a list of events. -/
def countStarted (events : List Event) : ℕ :=
  (events.filter fun e =>
    match e with
    | Event.speech_started _ _ _ => true
    | _ => false).length

/-- Default turn-detection configuration installed by
`create_session_configuration` (`speaches/realtime/session.py`, lines 19-24). -/
def tdDefault : TurnDetection :=
  { threshold := 9 / 10, prefix_padding_ms := 0, silence_duration_ms := 550,
    create_response := false }

/-- Turn-detection configuration used in the concrete evaluations below; it
matches `tdDefault` except for an integral `threshold` (the threshold is only
forwarded to the VAD capability, so its value is irrelevant to every property
proved here, and an integral value lets the kernel evaluate it). -/
def tdTest : TurnDetection :=
  { threshold := 1, prefix_padding_ms := 0, silence_duration_ms := 550,
    create_response := false }

/-- Concrete buffer holding 16 samples (1 ms) with fresh VAD state. -/
def buf16 : InputAudioBuffer :=
  { id := "b0", data := List.replicate 16 0,
    vad_state := { audio_start_ms := none, audio_end_ms := none } }

/-- Concrete closed buffer: both VAD markers set, 16 samples. -/
def c1buf : InputAudioBuffer :=
  { id := "b0", data := List.replicate 16 0,
    vad_state := { audio_start_ms := some 0, audio_end_ms := some 0 } }

/-- Concrete in-speech buffer: start marker set, end marker unset. -/
def c5buf : InputAudioBuffer :=
  { id := "b0", data := List.replicate 16 0,
    vad_state := { audio_start_ms := some 0, audio_end_ms := none } }

/-- Concrete raw VAD answer: one span of samples 16000-32000 (1000-2000 ms). -/
def c4raw : List SpeechTimestamp := [{ start := 16000, end_ := 32000 }]

/-- Concrete session whose active buffer is empty. -/
def ctxEmptyBuf : SessionContext :=
  { input_audio_buffers := [("b0", newInputAudioBuffer "b0")], conversation := [],
    turn_detection := some tdTest }

/-- Concrete session whose active buffer holds 16 samples, with one
conversation item. -/
def ctxNonEmpty : SessionContext :=
  { input_audio_buffers := [("b0", buf16)], conversation := ["itemA"],
    turn_detection := some tdTest }

/-- Case equation of `vad_detection_flow`: fresh state, no span reported. -/
theorem vad_flow_none_none (b : InputAudioBuffer) (td : TurnDetection)
    (raw : List SpeechTimestamp) (eid : String) (h1 : b.vad_state.audio_start_ms = none)
    (h2 : (to_ms_speech_timestamps raw).getLast? = none) :
    vad_detection_flow b td raw eid = (none, b) := by
  unfold vad_detection_flow
  rw [h1, h2]

/-- Case equation of `vad_detection_flow`: fresh state, a span reported. -/
theorem vad_flow_none_some (b : InputAudioBuffer) (td : TurnDetection)
    (raw : List SpeechTimestamp) (eid : String) (ts : SpeechTimestamp)
    (h1 : b.vad_state.audio_start_ms = none)
    (h2 : (to_ms_speech_timestamps raw).getLast? = some ts) :
    vad_detection_flow b td raw eid = vad_started_result b ts eid := by
  unfold vad_detection_flow vad_started_result speech_start_value
  rw [h1, h2]

/-- Case equation of `vad_detection_flow`: start marker set, no span reported. -/
theorem vad_flow_some_none (b : InputAudioBuffer) (td : TurnDetection)
    (raw : List SpeechTimestamp) (eid : String) (v : ℤ)
    (h1 : b.vad_state.audio_start_ms = some v)
    (h2 : (to_ms_speech_timestamps raw).getLast? = none) :
    vad_detection_flow b td raw eid = vad_stopped_result b td eid := by
  unfold vad_detection_flow vad_stopped_result
  rw [h1, h2]

/-- Case equation of `vad_detection_flow`: start marker set, a stale span
reported (its end is more than 3000 ms from the live edge). -/
theorem vad_flow_some_stale (b : InputAudioBuffer) (td : TurnDetection)
    (raw : List SpeechTimestamp) (eid : String) (v : ℤ) (ts : SpeechTimestamp)
    (h1 : b.vad_state.audio_start_ms = some v)
    (h2 : (to_ms_speech_timestamps raw).getLast? = some ts)
    (h3 : ts.end_ < 3000 ∧ 3000 < b.duration_ms) :
    vad_detection_flow b td raw eid = vad_stopped_result b td eid := by
  unfold vad_detection_flow vad_stopped_result
  rw [h1, h2]
  simp only [if_pos h3]

/-- Case equation of `vad_detection_flow`: start marker set, a recent span
reported. -/
theorem vad_flow_some_recent (b : InputAudioBuffer) (td : TurnDetection)
    (raw : List SpeechTimestamp) (eid : String) (v : ℤ) (ts : SpeechTimestamp)
    (h1 : b.vad_state.audio_start_ms = some v)
    (h2 : (to_ms_speech_timestamps raw).getLast? = some ts)
    (h3 : ¬(ts.end_ < 3000 ∧ 3000 < b.duration_ms)) :
    vad_detection_flow b td raw eid = (none, b) := by
  unfold vad_detection_flow
  rw [h1, h2]
  simp only [if_neg h3]

/-- Behaviour of `vad_detection_flow` whenever the start marker is set
(the source branches only on `audio_start_ms`, source lines 84 and 97-122). -/
theorem vad_flow_start_set (b : InputAudioBuffer) (td : TurnDetection)
    (raw : List SpeechTimestamp) (eid : String)
    (h1 : b.vad_state.audio_start_ms.isSome = true) :
    ((to_ms_speech_timestamps raw).getLast? = none →
        vad_detection_flow b td raw eid = vad_stopped_result b td eid) ∧
    (∀ ts, (to_ms_speech_timestamps raw).getLast? = some ts →
      ((ts.end_ < 3000 ∧ 3000 < b.duration_ms) →
          vad_detection_flow b td raw eid = vad_stopped_result b td eid) ∧
      (¬(ts.end_ < 3000 ∧ 3000 < b.duration_ms) →
          vad_detection_flow b td raw eid = (none, b))) := by
  obtain ⟨v, hv⟩ := Option.isSome_iff_exists.mp h1
  refine ⟨fun h2 => vad_flow_some_none b td raw eid v hv h2, fun ts h2 => ⟨?_, ?_⟩⟩
  · exact fun h3 => vad_flow_some_stale b td raw eid v ts hv h2 h3
  · exact fun h3 => vad_flow_some_recent b td raw eid v ts hv h2 h3

/-- C1: the claim reads "`audio_end_ms` already set — (any VAD outcome) — no
event: this engine does not re-enter a closed buffer".  Counterexample: on a
buffer with both markers set (1 ms of audio, start 0, end 0) and a window
with no reported span, `vad_detection_flow` emits another `speech_stopped`
and overwrites `audio_end_ms` with `duration_ms - prefix_padding_ms = 1`. -/
theorem C1_closed_buffer_counterexample :
    c1buf.vad_state.audio_end_ms = some 0 ∧
    (vad_detection_flow c1buf tdTest [] "e0").1 =
      some (Event.speech_stopped "e0" "b0" 1) ∧
    (vad_detection_flow c1buf tdTest [] "e0").2.vad_state ≠ c1buf.vad_state := by
  decide

/-- C1 (amended): a buffer whose `audio_end_ms` is already set is not treated
as closed — `vad_detection_flow` behaves exactly as for any buffer whose
start marker is set: it re-emits `speech_stopped` (overwriting
`audio_end_ms` with `duration_ms - prefix_padding_ms`) when the window shows
no span or a stale span (`end < 3000` ms while `duration_ms > 3000`), and
returns no event with unchanged state only when a recent span is reported. -/
theorem C1_closed_buffer_amended (b : InputAudioBuffer) (td : TurnDetection)
    (raw : List SpeechTimestamp) (eid : String)
    (hstart : b.vad_state.audio_start_ms.isSome = true)
    (_hend : b.vad_state.audio_end_ms.isSome = true) :
    ((to_ms_speech_timestamps raw).getLast? = none →
        vad_detection_flow b td raw eid = vad_stopped_result b td eid) ∧
    (∀ ts, (to_ms_speech_timestamps raw).getLast? = some ts →
      ((ts.end_ < 3000 ∧ 3000 < b.duration_ms) →
          vad_detection_flow b td raw eid = vad_stopped_result b td eid) ∧
      (¬(ts.end_ < 3000 ∧ 3000 < b.duration_ms) →
          vad_detection_flow b td raw eid = (none, b))) :=
  vad_flow_start_set b td raw eid hstart

/-- Witness for `C1_closed_buffer_amended` at the closed buffer `c1buf` with
an empty VAD answer. -/
theorem C1_closed_buffer_amended_witness :
    c1buf.vad_state.audio_start_ms.isSome = true ∧
    c1buf.vad_state.audio_end_ms.isSome = true ∧
    vad_detection_flow c1buf tdTest [] "e0" = vad_stopped_result c1buf tdTest "e0" :=
  ⟨by decide, by decide,
    (C1_closed_buffer_amended c1buf tdTest [] "e0" (by decide) (by decide)).1 rfl⟩

/-- C4: on a buffer with `audio_start_ms = None`, a reported span sets
`audio_start_ms = duration_ms - window_duration_ms + span.start` (the window
being the at-most-3000-ms trailing slice actually used) and yields a
`speech_started` event carrying that value and the buffer's id; no reported
span yields no event and no state change. -/
theorem C4_speech_started (b : InputAudioBuffer) (td : TurnDetection)
    (raw : List SpeechTimestamp) (eid : String)
    (hstart : b.vad_state.audio_start_ms = none) :
    ((to_ms_speech_timestamps raw).getLast? = none →
        vad_detection_flow b td raw eid = (none, b)) ∧
    (∀ ts, (to_ms_speech_timestamps raw).getLast? = some ts →
      vad_detection_flow b td raw eid = vad_started_result b ts eid ∧
      speech_start_value b ts =
        (b.duration_ms : ℤ) - (((vad_window b).length / MS_SAMPLE_RATE : ℕ) : ℤ) +
          (ts.start : ℤ)) :=
  ⟨fun h2 => vad_flow_none_none b td raw eid hstart h2,
   fun ts h2 => ⟨vad_flow_none_some b td raw eid ts hstart h2, rfl⟩⟩

/-- Witness for `C4_speech_started`: 1 ms buffer, one span starting at sample
16000 of the window (1000 ms); `audio_start_ms = 1 - 1 + 1000 = 1000`. -/
theorem C4_speech_started_witness :
    buf16.vad_state.audio_start_ms = none ∧
    vad_detection_flow buf16 tdTest c4raw "e0" =
      vad_started_result buf16 { start := 1000, end_ := 2000 } "e0" ∧
    speech_start_value buf16 { start := 1000, end_ := 2000 } = 1000 :=
  ⟨rfl,
    ((C4_speech_started buf16 tdTest c4raw "e0" rfl).2
        { start := 1000, end_ := 2000 } (by decide)).1,
    by decide⟩

/-- C5: on a buffer with `audio_start_ms` set and `audio_end_ms = None`, a
span with `end < 3000` ms while `duration_ms > 3000`, or no span at all,
sets `audio_end_ms = duration_ms - prefix_padding_ms` and yields a
`speech_stopped` event with that value; a span with `end >= 3000` ms, or a
buffer not yet longer than 3000 ms, yields no event. -/
theorem C5_speech_stopped_transitions (b : InputAudioBuffer) (td : TurnDetection)
    (raw : List SpeechTimestamp) (eid : String)
    (hstart : b.vad_state.audio_start_ms.isSome = true)
    (_hend : b.vad_state.audio_end_ms = none) :
    ((to_ms_speech_timestamps raw).getLast? = none →
        vad_detection_flow b td raw eid = vad_stopped_result b td eid) ∧
    (∀ ts, (to_ms_speech_timestamps raw).getLast? = some ts →
      ((ts.end_ < 3000 ∧ 3000 < b.duration_ms) →
          vad_detection_flow b td raw eid = vad_stopped_result b td eid) ∧
      (¬(ts.end_ < 3000 ∧ 3000 < b.duration_ms) →
          vad_detection_flow b td raw eid = (none, b))) :=
  vad_flow_start_set b td raw eid hstart

/-- Witness for `C5_speech_stopped_transitions` at the in-speech buffer
`c5buf` with an empty VAD answer: `audio_end_ms` becomes `1 - 0 = 1`. -/
theorem C5_speech_stopped_transitions_witness :
    c5buf.vad_state.audio_start_ms.isSome = true ∧
    c5buf.vad_state.audio_end_ms = none ∧
    vad_detection_flow c5buf tdTest [] "e0" = vad_stopped_result c5buf tdTest "e0" :=
  ⟨by decide, rfl,
    (C5_speech_stopped_transitions c5buf tdTest [] "e0" (by decide) rfl).1 rfl⟩

/-- Decomposition of a list at its last element. -/
theorem list_eq_dropLast_append {α : Type} {l : List α} {a : α} (h : l.getLast? = some a) :
    l = l.dropLast ++ [a] :=
  (List.dropLast_append_getLast? a h).symm

/-- A key absent from an association list makes Python's `m[k] = v` an
append. -/
theorem dictInsert_fresh (m : List (String × InputAudioBuffer)) (k : String)
    (v : InputAudioBuffer) (h : ∀ p ∈ m, p.1 ≠ k) :
    dictInsert m k v = m ++ [(k, v)] := by
  unfold dictInsert
  rw [if_neg]
  simp only [List.any_eq_true, beq_iff_eq, not_exists, not_and]
  exact fun p hp => h p hp

/-- C3: committing while the active buffer has `size = 0` publishes exactly
one error event — type `invalid_request_error`, message that the buffer is
empty — and nothing else: the session context (active buffer id, buffer
mapping, conversation) is returned unchanged. -/
theorem C3_commit_empty (eid newId : String) (ctx : SessionContext)
    (bufId : String) (buf : InputAudioBuffer)
    (hactive : ctx.input_audio_buffers.getLast? = some (bufId, buf))
    (hempty : buf.size = 0) :
    handle_input_audio_buffer_commit eid newId ctx =
      (ctx, [Event.error_event eid empty_input_audio_buffer_commit_error]) ∧
    empty_input_audio_buffer_commit_error.type = "invalid_request_error" ∧
    empty_input_audio_buffer_commit_error.message =
      "Error committing input audio buffer: the buffer is empty." := by
  refine ⟨?_, rfl, rfl⟩
  unfold handle_input_audio_buffer_commit
  rw [hactive]
  simp only [if_pos hempty]

/-- Witness for `C3_commit_empty` on a session with a fresh (empty) active
buffer. -/
theorem C3_commit_empty_witness :
    ctxEmptyBuf.input_audio_buffers.getLast? = some ("b0", newInputAudioBuffer "b0") ∧
    (newInputAudioBuffer "b0").size = 0 ∧
    handle_input_audio_buffer_commit "e0" "b1" ctxEmptyBuf =
      (ctxEmptyBuf, [Event.error_event "e0" empty_input_audio_buffer_commit_error]) :=
  ⟨rfl, rfl,
    (C3_commit_empty "e0" "b1" ctxEmptyBuf "b0" (newInputAudioBuffer "b0") rfl rfl).1⟩

/-- C6: committing a non-empty active buffer publishes exactly one
`committed` event whose `item_id` is the active buffer's id and whose
`previous_item_id` is the last conversation item (or `none` when the
conversation is empty), then appends a new empty buffer under the fresh id:
the committed buffer stays in the mapping and the new empty buffer becomes
active under a different id. -/
theorem C6_commit_nonempty (eid newId : String) (ctx : SessionContext)
    (bufId : String) (buf : InputAudioBuffer)
    (hactive : ctx.input_audio_buffers.getLast? = some (bufId, buf))
    (hne : buf.size ≠ 0)
    (hfresh : ∀ p ∈ ctx.input_audio_buffers, p.1 ≠ newId) :
    handle_input_audio_buffer_commit eid newId ctx =
      ({ ctx with input_audio_buffers :=
          ctx.input_audio_buffers ++ [(newId, newInputAudioBuffer newId)] },
       [Event.committed eid ctx.conversation.getLast? bufId]) ∧
    newId ≠ bufId ∧
    (bufId, buf) ∈ (handle_input_audio_buffer_commit eid newId ctx).1.input_audio_buffers ∧
    (handle_input_audio_buffer_commit eid newId ctx).1.input_audio_buffers.getLast? =
      some (newId, newInputAudioBuffer newId) ∧
    (newInputAudioBuffer newId).size = 0 := by
  have hmem : (bufId, buf) ∈ ctx.input_audio_buffers := by
    rw [list_eq_dropLast_append hactive]
    exact List.mem_append_right _ (List.mem_singleton.mpr rfl)
  have hres : handle_input_audio_buffer_commit eid newId ctx =
      ({ ctx with input_audio_buffers :=
          ctx.input_audio_buffers ++ [(newId, newInputAudioBuffer newId)] },
       [Event.committed eid ctx.conversation.getLast? bufId]) := by
    unfold handle_input_audio_buffer_commit
    rw [hactive]
    simp only [if_neg hne]
    rw [dictInsert_fresh _ _ _ hfresh]
  refine ⟨hres, fun hEq => hfresh _ hmem hEq.symm, ?_, ?_, rfl⟩
  · rw [hres]
    exact List.mem_append_left _ hmem
  · rw [hres]
    simp

/-- Witness for `C6_commit_nonempty` on a session whose active buffer holds
16 samples and whose conversation holds one item. -/
theorem C6_commit_nonempty_witness :
    ctxNonEmpty.input_audio_buffers.getLast? = some ("b0", buf16) ∧
    buf16.size ≠ 0 ∧
    (∀ p ∈ ctxNonEmpty.input_audio_buffers, p.1 ≠ "b1") ∧
    handle_input_audio_buffer_commit "e0" "b1" ctxNonEmpty =
      ({ ctxNonEmpty with input_audio_buffers :=
          ctxNonEmpty.input_audio_buffers ++ [("b1", newInputAudioBuffer "b1")] },
       [Event.committed "e0" ctxNonEmpty.conversation.getLast? "b0"]) :=
  ⟨rfl, by decide, by decide,
    (C6_commit_nonempty "e0" "b1" ctxNonEmpty "b0" buf16 rfl (by decide) (by decide)).1⟩

/-- C7: clearing removes the active buffer's entry from the mapping (its id
stops being addressable), publishes exactly one `cleared` event — never an
error, even on an empty buffer — and installs a fresh empty active buffer
under a different id. -/
theorem C7_clear (eid newId : String) (ctx : SessionContext)
    (bufId : String) (buf : InputAudioBuffer)
    (hactive : ctx.input_audio_buffers.getLast? = some (bufId, buf))
    (hnodup : (ctx.input_audio_buffers.map Prod.fst).Nodup)
    (hfresh : ∀ p ∈ ctx.input_audio_buffers.dropLast, p.1 ≠ newId)
    (hfresh2 : newId ≠ bufId) :
    handle_input_audio_buffer_clear eid newId ctx =
      ({ ctx with input_audio_buffers :=
          ctx.input_audio_buffers.dropLast ++ [(newId, newInputAudioBuffer newId)] },
       [Event.cleared eid]) ∧
    bufId ∉ (handle_input_audio_buffer_clear eid newId ctx).1.input_audio_buffers.map Prod.fst ∧
    (handle_input_audio_buffer_clear eid newId ctx).1.input_audio_buffers.getLast? =
      some (newId, newInputAudioBuffer newId) ∧
    (newInputAudioBuffer newId).size = 0 := by
  have hres : handle_input_audio_buffer_clear eid newId ctx =
      ({ ctx with input_audio_buffers :=
          ctx.input_audio_buffers.dropLast ++ [(newId, newInputAudioBuffer newId)] },
       [Event.cleared eid]) := by
    unfold handle_input_audio_buffer_clear
    rw [dictInsert_fresh _ _ _ hfresh]
  have hkeys : ctx.input_audio_buffers.map Prod.fst =
      ctx.input_audio_buffers.dropLast.map Prod.fst ++ [bufId] := by
    conv_lhs => rw [list_eq_dropLast_append hactive]
    simp
  have hnotin : bufId ∉ ctx.input_audio_buffers.dropLast.map Prod.fst := by
    rw [hkeys] at hnodup
    have := List.disjoint_of_nodup_append hnodup
    intro hmem
    exact this hmem (List.mem_singleton.mpr rfl)
  refine ⟨hres, ?_, ?_, rfl⟩
  · rw [hres]
    simp only [List.map_append, List.mem_append, List.map_cons, List.map_nil,
      List.mem_singleton]
    rintro (h | h)
    · exact hnotin h
    · exact hfresh2 h.symm
  · rw [hres]
    simp

/-- Witness for `C7_clear` on a session with one active buffer. -/
theorem C7_clear_witness :
    ctxNonEmpty.input_audio_buffers.getLast? = some ("b0", buf16) ∧
    (ctxNonEmpty.input_audio_buffers.map Prod.fst).Nodup ∧
    handle_input_audio_buffer_clear "e0" "b1" ctxNonEmpty =
      ({ ctxNonEmpty with input_audio_buffers :=
          ctxNonEmpty.input_audio_buffers.dropLast ++ [("b1", newInputAudioBuffer "b1")] },
       [Event.cleared "e0"]) :=
  ⟨rfl, by decide,
    (C7_clear "e0" "b1" ctxNonEmpty "b0" buf16 rfl (by decide) (by decide) (by decide)).1⟩

/-- C8: on a `speech_stopped` event for the active buffer the handler
installs a new empty active buffer (appended under the fresh id) and
publishes exactly one `committed` event whose `item_id` is the stopped
buffer's id and whose `previous_item_id` is the last conversation item id,
or the placeholder `"IDK"` when the conversation is empty. -/
theorem C8_speech_stopped_rotation (eid newId itemId : String) (ctx : SessionContext)
    (hfresh : ∀ p ∈ ctx.input_audio_buffers, p.1 ≠ newId) :
    handle_input_audio_buffer_speech_stopped eid newId itemId ctx =
      ({ ctx with input_audio_buffers :=
          ctx.input_audio_buffers ++ [(newId, newInputAudioBuffer newId)] },
       [Event.committed eid (some ((ctx.conversation.getLast?).getD "IDK")) itemId]) ∧
    (handle_input_audio_buffer_speech_stopped eid newId itemId ctx).1.input_audio_buffers.getLast?
      = some (newId, newInputAudioBuffer newId) ∧
    (newInputAudioBuffer newId).size = 0 := by
  have hres : handle_input_audio_buffer_speech_stopped eid newId itemId ctx =
      ({ ctx with input_audio_buffers :=
          ctx.input_audio_buffers ++ [(newId, newInputAudioBuffer newId)] },
       [Event.committed eid (some ((ctx.conversation.getLast?).getD "IDK")) itemId]) := by
    unfold handle_input_audio_buffer_speech_stopped
    rw [dictInsert_fresh _ _ _ hfresh]
  refine ⟨hres, ?_, rfl⟩
  rw [hres]
  simp

/-- Witness for `C8_speech_stopped_rotation` on a session with one
conversation item. -/
theorem C8_speech_stopped_rotation_witness :
    (∀ p ∈ ctxNonEmpty.input_audio_buffers, p.1 ≠ "b1") ∧
    handle_input_audio_buffer_speech_stopped "e0" "b1" "b0" ctxNonEmpty =
      ({ ctxNonEmpty with input_audio_buffers :=
          ctxNonEmpty.input_audio_buffers ++ [("b1", newInputAudioBuffer "b1")] },
       [Event.committed "e0" (some "itemA") "b0"]) :=
  ⟨by decide,
    (C8_speech_stopped_rotation "e0" "b1" "b0" ctxNonEmpty (by decide)).1⟩

/-- C9: the claim reads "a zero-length buffer never triggers the external VAD
capability (caller skips evaluation when empty)".  Counterexample: with turn
detection configured, appending one 24 kHz sample resamples to
`int(1 * 16000/24000) = 0` samples, the active buffer stays zero-length, and
the handler still invokes the VAD capability — on the empty window. -/
theorem C9_empty_buffer_counterexample :
    ctxEmptyBuf.turn_detection.isSome = true ∧
    (handle_input_audio_buffer_append [0] [] "e0" ctxEmptyBuf).vad_windows = [[]] ∧
    ((handle_input_audio_buffer_append [0] [] "e0" ctxEmptyBuf).ctx.input_audio_buffers.getLast?).map
        (fun p => p.2.size) = some 0 := by
  decide

/-- C9 (amended): the append handler guards the VAD invocation only on the
presence of a turn-detection configuration (source line 139), never on the
buffer's size: whenever turn detection is configured it invokes the VAD
capability exactly once, on the trailing window of the grown buffer — even
when that buffer (and hence the window) is zero-length. -/
theorem C9_vad_invocation_amended (chunk : List ℚ) (raw : List SpeechTimestamp)
    (eid : String) (ctx : SessionContext) (bufId : String) (buf : InputAudioBuffer)
    (hactive : ctx.input_audio_buffers.getLast? = some (bufId, buf)) :
    (handle_input_audio_buffer_append chunk raw eid ctx).vad_windows =
      if ctx.turn_detection.isSome then
        [vad_window { buf with data := buf.data ++ resample_audio_data chunk 24000 16000 }]
      else [] := by
  unfold handle_input_audio_buffer_append
  rw [hactive]
  cases htd : ctx.turn_detection <;> simp [htd]

/-- Witness for `C9_vad_invocation_amended` on a session with an empty active
buffer and a one-sample chunk. -/
theorem C9_vad_invocation_amended_witness :
    ctxEmptyBuf.input_audio_buffers.getLast? = some ("b0", newInputAudioBuffer "b0") ∧
    (handle_input_audio_buffer_append [0] [] "e0" ctxEmptyBuf).vad_windows =
      (if ctxEmptyBuf.turn_detection.isSome then
        [vad_window { newInputAudioBuffer "b0" with
          data := (newInputAudioBuffer "b0").data ++ resample_audio_data [0] 24000 16000 }]
      else []) :=
  ⟨rfl, C9_vad_invocation_amended [0] [] "e0" ctxEmptyBuf "b0" (newInputAudioBuffer "b0") rfl⟩

/-- Length of a `linspace` is its requested point count. -/
theorem linspace_length (stop : ℚ) (num : ℕ) : (linspace stop num).length = num := by
  unfold linspace
  split <;> simp

/-- Output sample `i` of the resampler is the interpolation of the input at
the `i`-th `linspace(0, len, target_length)` position. -/
theorem resample_getD (data : List ℚ) (s t : ℕ) (i : ℕ)
    (h2 : 2 ≤ data.length * t / s) (hi : i < data.length * t / s) :
    (resample_audio_data data s t).getD i 0 =
      np_interp data
        ((data.length : ℚ) * i / (((data.length * t / s : ℕ) : ℚ) - 1)) := by
  unfold resample_audio_data linspace
  rw [if_neg (by omega)]
  rw [List.map_map, List.getD_eq_getElem?_getD, List.getElem?_map, List.getElem?_range hi]
  simp

/-- C2 counterexample.  The claim states output length
`round(len * to_rate / from_rate)` and output sample `i` equal to the input
interpolated at position `i * from_rate / to_rate`.  Both fail: resampling
one sample from 16 kHz to 24 kHz yields 1 sample while
`round(1 * 24000/16000) = 2` (the source truncates); and resampling
`[0, 1, 0, 0]` from 16 kHz to 32 kHz gives output sample 1 equal to `4/7`
(position `1·4/7` of the linspace grid), not the claimed interpolation
`1/2` at position `1 * 16000/32000`. -/
theorem C2_resample_counterexample :
    (resample_audio_data [0] 16000 24000).length = 1 ∧
    round (((([(0 : ℚ)].length : ℕ) : ℚ) * 24000) / 16000) = 2 ∧
    (resample_audio_data [0, 1, 0, 0] 16000 32000).getD 1 0 = 4 / 7 ∧
    np_interp [0, 1, 0, 0] ((1 : ℚ) * 16000 / 32000) = 1 / 2 ∧
    ((4 : ℚ) / 7) ≠ 1 / 2 := by
  have hfl47 : ⌊((4 : ℚ) / 7)⌋ = 0 := by
    rw [Int.floor_eq_zero_iff]
    constructor <;> norm_num
  have hfl12 : ⌊((1 : ℚ) * 16000 / 32000)⌋ = 0 := by
    rw [Int.floor_eq_zero_iff]
    constructor <;> norm_num
  refine ⟨by decide, by norm_num [round_eq], ?_, by norm_num [np_interp, hfl12, List.getD], by norm_num⟩
  have h1 := resample_getD [0, 1, 0, 0] 16000 32000 1 (by norm_num) (by norm_num)
  have hx : ((([0, 1, 0, 0] : List ℚ).length : ℚ) * (1 : ℕ) /
      (((([0, 1, 0, 0] : List ℚ).length * 32000 / 16000 : ℕ) : ℚ) - 1)) = 4 / 7 := by
    norm_num
  rw [h1, hx]
  norm_num [np_interp, hfl47, List.getD]

/-- C2 (amended): `resample(samples, from_rate, to_rate)` returns
`floor(len(samples) * to_rate / from_rate)` samples (truncation, not
rounding), and output sample `i` is the linear interpolation of the input
evaluated at the `numpy.linspace(0, len(samples), target_length)` position
`i * len(samples) / (target_length - 1)` (edge-clamped; stated for
`target_length ≥ 2`), not at `i * from_rate / to_rate`; in particular
resampling `A` samples from rate `R` to rate `2R` yields exactly `2A`
samples. -/
theorem C2_resample_amended (data : List ℚ) (s t : ℕ) (hs : 0 < s) :
    (resample_audio_data data s t).length = data.length * t / s ∧
    (resample_audio_data data s (2 * s)).length = 2 * data.length ∧
    (∀ i, 2 ≤ data.length * t / s → i < data.length * t / s →
      (resample_audio_data data s t).getD i 0 =
        np_interp data
          ((data.length : ℚ) * i / (((data.length * t / s : ℕ) : ℚ) - 1))) := by
  refine ⟨?_, ?_, fun i h2 hi => resample_getD data s t i h2 hi⟩
  · simp [resample_audio_data, linspace_length]
  · simp only [resample_audio_data, List.length_map, linspace_length]
    rw [show data.length * (2 * s) = 2 * data.length * s by ring,
      Nat.mul_div_cancel _ hs]

/-- Witness for `C2_resample_amended` at two concrete samples resampled from
16 kHz to 32 kHz. -/
theorem C2_resample_amended_witness :
    (0 : ℕ) < 16000 ∧
    (resample_audio_data [0, 1] 16000 32000).length = [(0 : ℚ), 1].length * 32000 / 16000 ∧
    (resample_audio_data [0, 1] 16000 (2 * 16000)).length = 2 * [(0 : ℚ), 1].length :=
  ⟨by decide,
    (C2_resample_amended [0, 1] 16000 32000 (by decide)).1,
    (C2_resample_amended [0, 1] 16000 32000 (by decide)).2.1⟩

/-- Counting of `speech_started` events distributes over concatenation. -/
theorem countStarted_append (a b : List Event) :
    countStarted (a ++ b) = countStarted a + countStarted b := by
  simp [countStarted, List.filter_append]

/-- One evaluation cannot disturb a set start marker and never produces a
`speech_started` event on a buffer whose start marker is set. -/
theorem runVadCall_start_mono (id : String) (s : VadState) (c : VadCall) (v : ℤ)
    (h : s.audio_start_ms = some v) :
    (runVadCall id s c).1.audio_start_ms = some v ∧
    countStarted (runVadCall id s c).2.toList = 0 := by
  rcases hts : (to_ms_speech_timestamps c.raw).getLast? with _ | ts
  · have hr := vad_flow_some_none ⟨id, c.data, s⟩ c.td c.raw c.eid v h hts
    simp [runVadCall, hr, vad_stopped_result, countStarted, h]
  · by_cases hcond : ts.end_ < 3000 ∧ 3000 < (⟨id, c.data, s⟩ : InputAudioBuffer).duration_ms
    · have hr := vad_flow_some_stale ⟨id, c.data, s⟩ c.td c.raw c.eid v ts h hts hcond
      simp [runVadCall, hr, vad_stopped_result, countStarted, h]
    · have hr := vad_flow_some_recent ⟨id, c.data, s⟩ c.td c.raw c.eid v ts h hts hcond
      simp [runVadCall, hr, countStarted, h]

/-- One evaluation on a fresh buffer either leaves the state untouched with
no `speech_started` event, or sets the start marker (leaving the end marker
alone) and produces exactly one `speech_started` event. -/
theorem runVadCall_fresh (id : String) (s : VadState) (c : VadCall)
    (h : s.audio_start_ms = none) :
    ((runVadCall id s c).1 = s ∧ countStarted (runVadCall id s c).2.toList = 0) ∨
    ((runVadCall id s c).1.audio_start_ms.isSome = true ∧
     (runVadCall id s c).1.audio_end_ms = s.audio_end_ms ∧
     countStarted (runVadCall id s c).2.toList = 1) := by
  rcases hts : (to_ms_speech_timestamps c.raw).getLast? with _ | ts
  · left
    have hr := vad_flow_none_none ⟨id, c.data, s⟩ c.td c.raw c.eid h hts
    simp [runVadCall, hr, countStarted]
  · right
    have hr := vad_flow_none_some ⟨id, c.data, s⟩ c.td c.raw c.eid ts h hts
    simp [runVadCall, hr, vad_started_result, countStarted]

/-- One evaluation preserves "the end marker is only set when the start
marker is". -/
theorem runVadCall_end_inv (id : String) (s : VadState) (c : VadCall)
    (hI : s.audio_end_ms.isSome = true → s.audio_start_ms.isSome = true) :
    (runVadCall id s c).1.audio_end_ms.isSome = true →
      (runVadCall id s c).1.audio_start_ms.isSome = true := by
  rcases hstart : s.audio_start_ms with _ | v
  · rcases runVadCall_fresh id s c hstart with ⟨h1, _⟩ | ⟨h1, _, _⟩
    · rw [h1]
      exact hI
    · exact fun _ => h1
  · intro _
    simp [(runVadCall_start_mono id s c v hstart).1]

/-- A set start marker survives any evaluation sequence unchanged, and no
`speech_started` event is produced along the way. -/
theorem runVadSeq_start_mono (id : String) (calls : List VadCall) :
    ∀ (s : VadState) (v : ℤ), s.audio_start_ms = some v →
      (runVadSeq id s calls).1.audio_start_ms = some v ∧
      countStarted (runVadSeq id s calls).2 = 0 := by
  induction calls with
  | nil =>
    intro s v h
    simpa [runVadSeq, countStarted] using h
  | cons c rest ih =>
    intro s v h
    have hstep := runVadCall_start_mono id s c v h
    have hrest := ih (runVadCall id s c).1 v hstep.1
    refine ⟨by simpa [runVadSeq] using hrest.1, ?_⟩
    simp [runVadSeq, countStarted_append, hstep.2, hrest.2]

/-- The end-marker invariant is preserved by any evaluation sequence. -/
theorem runVadSeq_end_inv (id : String) (calls : List VadCall) :
    ∀ s : VadState, (s.audio_end_ms.isSome = true → s.audio_start_ms.isSome = true) →
      ((runVadSeq id s calls).1.audio_end_ms.isSome = true →
        (runVadSeq id s calls).1.audio_start_ms.isSome = true) := by
  induction calls with
  | nil =>
    intro s hI
    simpa [runVadSeq] using hI
  | cons c rest ih =>
    intro s hI
    have := ih (runVadCall id s c).1 (runVadCall_end_inv id s c hI)
    simpa [runVadSeq] using this

/-- Starting from an unset start marker, an evaluation sequence produces at
most one `speech_started` event. -/
theorem runVadSeq_count_fresh (id : String) (calls : List VadCall) :
    ∀ s : VadState, s.audio_start_ms = none →
      countStarted (runVadSeq id s calls).2 ≤ 1 := by
  induction calls with
  | nil =>
    intro s _
    simp [runVadSeq, countStarted]
  | cons c rest ih =>
    intro s h
    rcases runVadCall_fresh id s c h with ⟨h1, h2⟩ | ⟨h1, _, h2⟩
    · have := ih (runVadCall id s c).1 (by rw [h1]; exact h)
      simpa [runVadSeq, countStarted_append, h2] using this
    · obtain ⟨w, hw⟩ := Option.isSome_iff_exists.mp h1
      have := (runVadSeq_start_mono id rest (runVadCall id s c).1 w hw).2
      simp [runVadSeq, countStarted_append, h2, this]

/-- C10: over any sequence of turn-detection evaluations on one buffer
(starting from any state satisfying the basic invariant), `audio_end_ms` can
only be set when `audio_start_ms` is set, at most one `speech_started` event
is ever produced, and a set `audio_start_ms` is never changed or unset — in
particular it is assigned at most once and no second `speech_started` can be
emitted for the same buffer. -/
theorem C10_vad_state_invariants (id : String) (s : VadState) (calls : List VadCall)
    (hI : s.audio_end_ms.isSome = true → s.audio_start_ms.isSome = true) :
    ((runVadSeq id s calls).1.audio_end_ms.isSome = true →
      (runVadSeq id s calls).1.audio_start_ms.isSome = true) ∧
    countStarted (runVadSeq id s calls).2 ≤ 1 ∧
    (∀ v, s.audio_start_ms = some v →
      (runVadSeq id s calls).1.audio_start_ms = some v ∧
      countStarted (runVadSeq id s calls).2 = 0) := by
  refine ⟨runVadSeq_end_inv id calls s hI, ?_,
    fun v hv => runVadSeq_start_mono id calls s v hv⟩
  rcases hstart : s.audio_start_ms with _ | v
  · exact runVadSeq_count_fresh id calls s hstart
  · have := (runVadSeq_start_mono id calls s v hstart).2
    omega

/-- Witness for `C10_vad_state_invariants` on a three-call run from the fresh
state: silence, then a span (one `speech_started`), then silence again. -/
theorem C10_vad_state_invariants_witness :
    countStarted (runVadSeq "b0"
      { audio_start_ms := none, audio_end_ms := none }
      [{ data := List.replicate 16 0, td := tdTest, raw := [], eid := "e1" },
       { data := List.replicate 32 0, td := tdTest, raw := c4raw, eid := "e2" },
       { data := List.replicate 48 0, td := tdTest, raw := [], eid := "e3" }]).2 ≤ 1 :=
  (C10_vad_state_invariants "b0" { audio_start_ms := none, audio_end_ms := none }
    [{ data := List.replicate 16 0, td := tdTest, raw := [], eid := "e1" },
     { data := List.replicate 32 0, td := tdTest, raw := c4raw, eid := "e2" },
     { data := List.replicate 48 0, td := tdTest, raw := [], eid := "e3" }]
    (by decide)).2.1

end Speaches
